import Mathlib

/-!
# Verification of the `controll` Electron main process (src/electron/main.js)

Shallow embedding of the discovery / control-handoff / worker-supervisor
logic of `src/electron/main.js`.  JavaScript dynamic values arriving from
the network (parsed JSON datagrams) are modelled by an inductive `JVal`;
the mutable module state of `main.js` is a `MainState` record; every
side-effecting call (spawn, kill, UDP send, approval dialog, UI message)
is recorded as an `Action` in the order the code performs it.  The
promise resolution of the approval dialog is modelled by a boolean oracle
passed to the datagram handler.
-/

namespace Controll

mutual

/-- A JavaScript value as it can appear after `JSON.parse`, plus
`absent` for the JS undefined value produced by reading a missing property.  Numbers are
modelled as integers (the fields this program reads numerically are
ports, which are integral). -/
inductive JVal where
  | absent : JVal
  | null : JVal
  | bool (b : Bool) : JVal
  | num (n : Int) : JVal
  | str (s : String) : JVal
  | arr (elems : JArr) : JVal
  | obj (fields : JObj) : JVal
deriving DecidableEq, Repr

/-- A JSON array: a sequence of values. -/
inductive JArr where
  | nil : JArr
  | cons (hd : JVal) (tl : JArr) : JArr
deriving DecidableEq, Repr

/-- A JSON object: a sequence of key/value pairs (duplicate keys possible
in the raw text; property access takes the last binding, as `JSON.parse`
does). -/
inductive JObj where
  | nil : JObj
  | cons (k : String) (v : JVal) (tl : JObj) : JObj
deriving DecidableEq, Repr

end

/-- JavaScript truthiness.  (`NaN` cannot occur inside parsed JSON.) -/
def jsTruthy : JVal → Bool
  | .absent => false
  | .null => false
  | .bool b => b
  | .num n => n != 0
  | .str s => s != ""
  | .arr _ => true
  | .obj _ => true

/-- Test of `typeof v` against the object type: true for objects, arrays
and `null`. -/
def typeofObject : JVal → Bool
  | .obj _ => true
  | .arr _ => true
  | .null => true
  | _ => false

/-- Walk the field list of an object; the last binding for `k` wins. -/
def JObj.getD (fields : JObj) (k : String) (acc : JVal) : JVal :=
  match fields with
  | .nil => acc
  | .cons k1 v tl => tl.getD k (if k1 = k then v else acc)

/-- Property read `v.k`; reading from a non-object yields `undefined`
(array index properties are never read by this program under a string
name it uses). -/
def getField (v : JVal) (k : String) : JVal :=
  match v with
  | .obj fields => fields.getD k .absent
  | _ => .absent

/-- JavaScript `a || b`. -/
def jsOr (a b : JVal) : JVal := if jsTruthy a then a else b

/-- JavaScript `Number(v)`, with `none` standing for `NaN`.  String
conversion is modelled for integral literals; non-numeric strings give
`NaN`.  (Object/array `toPrimitive` coercion is collapsed to `NaN`; no
value of that shape is exercised by the theorems below.) -/
def jsNumber : JVal → Option Int
  | .absent => none
  | .null => some 0
  | .bool b => some (if b then 1 else 0)
  | .num n => some n
  | .str s => if s = "" then some 0 else s.trim.toInt?
  | .arr _ => none
  | .obj _ => none

/-- Constant `BEACON_INTERVAL = 2000` (main.js line 16). -/
def BEACON_INTERVAL : Int := 2000

/-- Constant `DEVICE_TTL = BEACON_INTERVAL * 3 + 2000` (main.js line 17). -/
def DEVICE_TTL : Int := BEACON_INTERVAL * 3 + 2000

/-- One entry of the `devices` map (main.js lines 77-83): the record
built from a received BEACON. -/
structure Device where
  name : JVal
  ip : JVal
  ws_port : Option Int
  last_seen : Int
  instance_id : JVal
deriving DecidableEq, Repr

/-- The fields of the options object that `startServer` reads
(main.js lines 192-194).  `{}` corresponds to all fields absent. -/
structure ServerOptions where
  hotkey : Option String
  noTxMouse : Bool
  noTxKeyboard : Bool
deriving DecidableEq, Repr

/-- Every observable side effect of the main process, in program order:
UDP sends, the approval dialog, child-process spawns and kills, and
messages to the renderer UI. -/
inductive Action where
  | approvalPrompt (name : JVal) : Action
  | sendResponse (targetIp : String) (accepted : Bool) (fromId : String) : Action
  | spawnServer (pid : Nat) (args : List String) : Action
  | spawnClient (pid : Nat) (host : JVal) (port : Option Int) (options : JVal) : Action
  | killProc (pid : Nat) : Action
  | uiDevices (response : Option (JVal × String)) : Action
  | uiStatus (text : String) : Action
deriving DecidableEq, Repr

def Action.isPrompt : Action → Bool
  | .approvalPrompt _ => true
  | _ => false

def Action.isSendResponse : Action → Bool
  | .sendResponse _ _ _ => true
  | _ => false

def Action.isSpawnServer : Action → Bool
  | .spawnServer _ _ => true
  | _ => false

def Action.isSpawnClient : Action → Bool
  | .spawnClient _ _ _ _ => true
  | _ => false

def Action.isKill : Action → Bool
  | .killProc _ => true
  | _ => false

/-- The mutable module state of main.js: the instance identity, the
control-channel port, the `devices` map (insertion-ordered, as a JS
`Map`), the worker process handles, and a counter supplying fresh
process ids to `spawn`. -/
structure MainState where
  instanceId : String
  wsPort : Int
  devices : List (JVal × Device)
  serverProc : Option Nat
  serverStarted : Bool
  clientProc : Option Nat
  nextPid : Nat
deriving DecidableEq, Repr

/-- JS `Map.prototype.set`: refresh in place when the key exists
(keeping insertion order), otherwise append.  JS compares object keys
by reference; the keys this program uses are the primitive
`instance_id` values, for which structural equality coincides. -/
def mapSet (m : List (JVal × Device)) (k : JVal) (v : Device) : List (JVal × Device) :=
  if m.any (fun kv => kv.1 == k) then
    m.map (fun kv => if kv.1 == k then (k, v) else kv)
  else m ++ [(k, v)]

/-- JS `Map.prototype.get` as used through `devices` lookups. -/
def lookupDevice (m : List (JVal × Device)) (k : JVal) : Option Device :=
  (m.find? (fun kv => kv.1 == k)).map Prod.snd

/-- Value of the `--hotkey` argument: `options.hotkey || "f13"`
(line 192); an absent or empty hotkey falls back to the default. -/
def hotkeyArg (o : ServerOptions) : String :=
  match o.hotkey with
  | some h => if h = "" then "f13" else h
  | none => "f13"

/-- The argv built for the capture worker (main.js line 192-194); the
filesystem prefix of the script path is elided. -/
def serverArgs (wsPort : Int) (options : ServerOptions) : List String :=
  ["server.py", "--host", "0.0.0.0", "--port", toString wsPort,
      "--hotkey", hotkeyArg options, "--start-capturing"]
    ++ (if options.noTxMouse then ["--no-tx-mouse"] else [])
    ++ (if options.noTxKeyboard then ["--no-tx-keyboard"] else [])

/-- Model of `startServer(options)` (main.js lines 187-198): a no-op whenever
`serverStarted` is set, otherwise spawn the capture worker on the
current `wsPort` and report status. -/
def startServer (s : MainState) (options : ServerOptions) : MainState × List Action :=
  if s.serverStarted then (s, [])
  else
    ({ s with serverStarted := true, serverProc := some s.nextPid, nextPid := s.nextPid + 1 },
      [Action.spawnServer s.nextPid (serverArgs s.wsPort options),
        Action.uiStatus ("Server gestartet auf Port " ++ toString s.wsPort)])

/-- Model of `stopServer()` (main.js lines 200-203): kill the tracked capture
worker, if any, and clear the handle and flag. -/
def stopServer (s : MainState) : MainState × List Action :=
  ({ s with serverProc := none, serverStarted := false },
    match s.serverProc with
    | some pid => [Action.killProc pid]
    | none => [])

/-- Model of `startClient(host, port, options)` (main.js lines 205-212): spawn
the inject worker aimed at `host:port` and store the handle; any prior
inject worker handle is overwritten without being stopped.  The argv
construction from `options` is recorded as the raw options value since
no property here inspects it further. -/
def startClient (s : MainState) (host : JVal) (port : Option Int) (options : JVal) :
    MainState × List Action :=
  ({ s with clientProc := some s.nextPid, nextPid := s.nextPid + 1 },
    [Action.spawnClient s.nextPid host port options])

/-- Model of `stopClient()` (main.js lines 214-217). -/
def stopClient (s : MainState) : MainState × List Action :=
  ({ s with clientProc := none },
    match s.clientProc with
    | some pid => [Action.killProc pid]
    | none => [])

/-- The Device record built from a BEACON (main.js lines 77-83). -/
def beaconDevice (msg : JVal) (senderAddr : String) (now : Int) : Device :=
  { name := jsOr (getField msg "name") (JVal.str "Unbekannt"),
    ip := jsOr (getField msg "ip") (JVal.str senderAddr),
    ws_port := jsNumber (jsOr (getField msg "ws_port") (JVal.num 8765)),
    last_seen := now,
    instance_id := getField msg "instance_id" }

/-- The handler registered for inbound datagrams (main.js lines 69-113).
`raw` is the result of `JSON.parse` on the datagram (`none` when the
parse threw and the `catch` returned); `senderAddr` is
`rinfo.address`; `now` is `Date.now()`; `approve` is the value the
approval dialog promise resolves to (`res.response === 0`).  The
handler is a total function: every malformed input falls into an early
`return` branch, so no datagram can fault out of the receive loop. -/
def handleMessage (s : MainState) (raw : Option JVal) (senderAddr : String)
    (now : Int) (approve : Bool) : MainState × List Action :=
  match raw with
  | none => (s, [])
  | some msg =>
    if !(jsTruthy msg && typeofObject msg) then (s, [])
    else if getField msg "type" = JVal.str "BEACON" then
      let inst := getField msg "instance_id"
      if !(jsTruthy inst) || inst = JVal.str s.instanceId then (s, [])
      else
        ({ s with devices := mapSet s.devices inst (beaconDevice msg senderAddr now) },
          [Action.uiDevices none])
    else if getField msg "type" = JVal.str "REQUEST_CONTROL" then
      if jsTruthy (getField msg "to") && getField msg "to" != JVal.str s.instanceId then
        (s, [])
      else
        let host := getField msg "ws_host"
        let port := jsNumber (jsOr (getField msg "ws_port") (JVal.num 8765))
        let name := jsOr (getField msg "name") host
        if approve then
          let r := startClient s host port (jsOr (getField msg "options") (JVal.obj JObj.nil))
          (r.1, [Action.approvalPrompt name,
                  Action.sendResponse senderAddr true s.instanceId]
                ++ r.2 ++ [Action.uiStatus "Als Client verbunden"])
        else
          (s, [Action.approvalPrompt name,
                Action.sendResponse senderAddr false s.instanceId])
    else if getField msg "type" = JVal.str "RESPONSE_CONTROL" then
      (s, [Action.uiDevices (some (msg, senderAddr))])
    else (s, [])

/-- The prune condition (main.js line 136):
`now - (info.last_seen || now) > DEVICE_TTL`. -/
def staleAt (now : Int) (d : Device) : Bool :=
  now - (if d.last_seen = 0 then now else d.last_seen) > DEVICE_TTL

/-- One tick of the prune timer (main.js lines 132-142): delete every
stale record; notify the UI only when something was removed. -/
def pruneDevices (s : MainState) (now : Int) : MainState × List Action :=
  let keep := s.devices.filter (fun kv => !(staleAt now kv.2))
  ({ s with devices := keep },
    if keep.length == s.devices.length then [] else [Action.uiDevices none])

/-- The IPC handler for a port change, server:setPort (main.js lines
222-227): validate the
number, store the new port, and when a capture worker is live, stop it
and start a fresh one with empty options `{}`.  (The `saveConfig()`
file write is outside the model.) -/
def setPort (s : MainState) (newPort : JVal) : MainState × List Action :=
  match jsNumber newPort with
  | none => (s, [])
  | some p =>
    if p ≤ 0 then (s, [])
    else
      let s1 : MainState := { s with wsPort := p }
      match s1.serverProc with
      | some _ =>
        let r1 := stopServer s1
        let r2 := startServer r1.1 ⟨none, false, false⟩
        (r2.1, r1.2 ++ r2.2)
      | none => (s1, [])

/-- One inbound datagram event: parse outcome, sender address,
current time, and the answer of the approval oracle. -/
structure UdpEvent where
  raw : Option JVal
  senderAddr : String
  now : Int
  approve : Bool

/-- Process a sequence of inbound datagrams through the receive
handler, threading the state. -/
def runEvents (s : MainState) (evs : List UdpEvent) : MainState :=
  evs.foldl (fun st e => (handleMessage st e.raw e.senderAddr e.now e.approve).1) s

/-- Capture-worker processes that may be running after an action:
`spawnServer` adds one, and nothing removes one, because `killProc`
models `child.kill()`, which only sends a termination signal and
returns — the process exits later, observed through the asynchronous
exit callback (main.js line 196).  No action of this program awaits
that exit (the `Action` type has no exit-observation constructor
because the code has no such synchronization point), so a killed
process may still be running at every later point of the trace. -/
def mayBeLiveServer (live : List Nat) : Action → List Nat
  | .spawnServer pid _ => live ++ [pid]
  | _ => live

/-- Capture-worker processes that may still be running after an
action trace, starting from the given possibly-live set. -/
def mayBeLiveAfter (live : List Nat) (acts : List Action) : List Nat :=
  acts.foldl mayBeLiveServer live

/-- The exit callback attached to the capture worker when it was
spawned (main.js line 196): whenever the process eventually exits, the
callback unconditionally clears `serverStarted` and `serverProc` and
reports status — even if a newer worker has been spawned and stored in
those variables in the meantime. -/
def serverExitCallback (s : MainState) : MainState × List Action :=
  ({ s with serverProc := none, serverStarted := false },
    [Action.uiStatus "Server beendet"])

/-- Which inject-worker processes an action leaves alive. -/
def applyClientAction (live : List Nat) : Action → List Nat
  | .spawnClient pid _ _ _ => live ++ [pid]
  | .killProc pid => live.filter (fun q => q != pid)
  | _ => live

/-- Inject-worker processes alive after an action trace. -/
def clientLiveAfter (live : List Nat) (acts : List Action) : List Nat :=
  acts.foldl applyClientAction live

/-- The registry invariant: every key is a truthy value distinct from
the local instance identity, and keys are pairwise distinct. -/
def goodDevices (instId : String) (m : List (JVal × Device)) : Prop :=
  (∀ k ∈ m.map Prod.fst, jsTruthy k = true ∧ k ≠ JVal.str instId) ∧
  (m.map Prod.fst).Nodup

/-- The malformed-datagram classes of the receive path: the JSON parse
threw; the parsed value is falsy or not of object type; or the `type`
discriminant is none of the three known kinds. -/
def malformedPayload (raw : Option JVal) : Prop :=
  raw = none ∨
    (∃ v, raw = some v ∧ (jsTruthy v = false ∨ typeofObject v = false)) ∨
    (∃ v, raw = some v ∧ getField v "type" ≠ JVal.str "BEACON" ∧
      getField v "type" ≠ JVal.str "REQUEST_CONTROL" ∧
      getField v "type" ≠ JVal.str "RESPONSE_CONTROL")

/-- A fresh instance state, as after startup with default config. -/
def exState : MainState :=
  { instanceId := "local-uuid", wsPort := 8765, devices := [],
    serverProc := none, serverStarted := false, clientProc := none, nextPid := 0 }

/-- A REQUEST_CONTROL datagram carrying no `to` field (the shape
`manual:request` produces). -/
def C1req : JVal :=
  JVal.obj (JObj.cons "type" (JVal.str "REQUEST_CONTROL")
    (JObj.cons "ws_host" (JVal.str "10.0.0.5")
      (JObj.cons "ws_port" (JVal.num 9100) JObj.nil)))

/-- A REQUEST_CONTROL datagram addressed to another instance. -/
def C1wMsg : JVal :=
  JVal.obj (JObj.cons "type" (JVal.str "REQUEST_CONTROL")
    (JObj.cons "to" (JVal.str "other-id")
      (JObj.cons "ws_host" (JVal.str "10.0.0.5")
        (JObj.cons "ws_port" (JVal.num 9100) JObj.nil))))

/-- A REQUEST_CONTROL from peer A addressed to this instance,
advertising the channel 10.0.0.5:9100 of A. -/
def C2req : JVal :=
  JVal.obj (JObj.cons "type" (JVal.str "REQUEST_CONTROL")
    (JObj.cons "from" (JVal.str "peer-A")
      (JObj.cons "to" (JVal.str "local-uuid")
        (JObj.cons "ws_host" (JVal.str "10.0.0.5")
          (JObj.cons "ws_port" (JVal.num 9100)
            (JObj.cons "options" (JVal.obj (JObj.cons "map" (JVal.str "relative") JObj.nil))
              JObj.nil))))))

/-- A RESPONSE_CONTROL{accepted:true} datagram as the requester
receives it. -/
def C2resp : JVal :=
  JVal.obj (JObj.cons "type" (JVal.str "RESPONSE_CONTROL")
    (JObj.cons "from" (JVal.str "peer-B")
      (JObj.cons "accepted" (JVal.bool true) JObj.nil)))

/-- A broadcast-style REQUEST_CONTROL without `to`, used to exercise
the amended C2 statement. -/
def C2wReq : JVal :=
  JVal.obj (JObj.cons "type" (JVal.str "REQUEST_CONTROL")
    (JObj.cons "ws_host" (JVal.str "10.0.0.5")
      (JObj.cons "ws_port" (JVal.num 9100) JObj.nil)))

/-- A RESPONSE_CONTROL{accepted:false} datagram. -/
def C2wResp : JVal :=
  JVal.obj (JObj.cons "type" (JVal.str "RESPONSE_CONTROL")
    (JObj.cons "from" (JVal.str "peer-B")
      (JObj.cons "accepted" (JVal.bool false) JObj.nil)))

/-- A first capture-worker configuration. -/
def C3optsA : ServerOptions := ⟨some "f1", false, false⟩

/-- A different capture-worker configuration. -/
def C3optsB : ServerOptions := ⟨some "f2", true, true⟩

/-- A capture-worker configuration for the C3 witness. -/
def C3wOpts : ServerOptions := ⟨some "f13", false, true⟩

/-- A RESPONSE_CONTROL from a peer no request was ever sent to. -/
def C5resp : JVal :=
  JVal.obj (JObj.cons "type" (JVal.str "RESPONSE_CONTROL")
    (JObj.cons "from" (JVal.str "stranger-id")
      (JObj.cons "accepted" (JVal.bool true) JObj.nil)))

/-- A well-formed JSON object of an unknown message type. -/
def C6junk : JVal :=
  JVal.obj (JObj.cons "type" (JVal.str "PING") (JObj.cons "x" (JVal.num 1) JObj.nil))

/-- A peer record last seen at time 1000. -/
def C7dev : Device :=
  { name := JVal.str "peer", ip := JVal.str "10.0.0.8", ws_port := some 8765,
    last_seen := 1000, instance_id := JVal.str "peer-id" }

/-- A state holding exactly the record `C7dev`. -/
def C7state : MainState :=
  { exState with devices := [(JVal.str "peer-id", C7dev)] }

/-- A beacon from instance `peer-8`. -/
def C8beacon : JVal :=
  JVal.obj (JObj.cons "type" (JVal.str "BEACON")
    (JObj.cons "instance_id" (JVal.str "peer-8")
      (JObj.cons "name" (JVal.str "Peer Eight")
        (JObj.cons "ip" (JVal.str "10.0.0.4")
          (JObj.cons "ws_port" (JVal.num 8765) JObj.nil)))))

/-- The beacon `C8beacon` as an inbound datagram event. -/
def C8ev : UdpEvent :=
  { raw := some C8beacon, senderAddr := "10.0.0.4", now := 100, approve := false }

/-- A state already holding a record for `peer-8` (from an earlier
beacon at time 100). -/
def C8state : MainState :=
  { exState with devices := [(JVal.str "peer-8", beaconDevice C8beacon "10.0.0.4" 100)] }

/-- A state whose capture worker (pid 7) is running on port 8765. -/
def C9state : MainState :=
  { exState with serverProc := some 7, serverStarted := true, nextPid := 8 }

/-- A state whose capture worker (pid 7) was started with a custom
hotkey and both forwarding flags disabled. -/
def C10state : MainState :=
  { exState with wsPort := 8001, serverProc := some 7, serverStarted := true, nextPid := 8 }

/-!  Helper lemmas about the registry map and the receive handler. -/

theorem updateKeys (m : List (JVal × Device)) (k : JVal) (v : Device) :
    (m.map (fun kv => if kv.1 == k then (k, v) else kv)).map Prod.fst = m.map Prod.fst := by
  induction m with
  | nil => rfl
  | cons kv tl ih =>
    by_cases h : kv.1 = k <;>
      simp [h, ih] <;>
      · intro a b hab
        by_cases hak : a = k <;> simp [hak]

theorem anyKey_iff (m : List (JVal × Device)) (k : JVal) :
    (m.any fun kv => kv.1 == k) = true ↔ k ∈ m.map Prod.fst := by
  simp [List.any_eq_true, List.mem_map]

theorem mapSet_keys (m : List (JVal × Device)) (k : JVal) (v : Device) :
    (mapSet m k v).map Prod.fst =
      if k ∈ m.map Prod.fst then m.map Prod.fst else m.map Prod.fst ++ [k] := by
  unfold mapSet
  by_cases h : k ∈ m.map Prod.fst
  · rw [if_pos ((anyKey_iff m k).mpr h), if_pos h, updateKeys]
  · rw [if_neg (fun hh => h ((anyKey_iff m k).mp hh)), if_neg h]
    simp

theorem mapSet_good (instId : String) (m : List (JVal × Device)) (k : JVal) (v : Device)
    (hk : jsTruthy k = true) (hne : k ≠ JVal.str instId) (h : goodDevices instId m) :
    goodDevices instId (mapSet m k v) := by
  obtain ⟨hall, hnd⟩ := h
  constructor
  · intro q hq
    rw [mapSet_keys] at hq
    split at hq
    · exact hall q hq
    · rcases List.mem_append.mp hq with hq | hq
      · exact hall q hq
      · simp at hq; subst hq; exact ⟨hk, hne⟩
  · rw [mapSet_keys]
    split
    · exact hnd
    · next hnotin =>
      rw [← List.concat_eq_append]
      exact List.Nodup.concat hnotin hnd

theorem lookupDevice_mapSet (m : List (JVal × Device)) (k : JVal) (v : Device) :
    lookupDevice (mapSet m k v) k = some v := by
  unfold mapSet lookupDevice
  by_cases hany : (m.any fun kv => kv.1 == k) = true
  · rw [if_pos hany]
    induction m with
    | nil => simp at hany
    | cons kv tl ih =>
      by_cases h : kv.1 = k
      · simp [h]
      · have htl : (tl.any fun kv => kv.1 == k) = true := by
          simp only [List.any_cons] at hany
          simpa [h] using hany
        simp only [List.map_cons]
        rw [List.find?_cons_of_neg]
        · exact ih htl
        · simp [h]
  · rw [if_neg hany]
    have hnone : m.find? (fun kv => kv.1 == k) = none := by
      rw [List.find?_eq_none]
      intro kv hin
      simp only [List.any_eq_true] at hany
      push_neg at hany
      intro hb
      exact absurd hb (hany kv hin)
    rw [List.find?_append, hnone]
    simp

theorem handleMessage_good (s : MainState) (raw : Option JVal) (addr : String)
    (now : Int) (approve : Bool) (h : goodDevices s.instanceId s.devices) :
    (handleMessage s raw addr now approve).1.instanceId = s.instanceId ∧
    goodDevices s.instanceId (handleMessage s raw addr now approve).1.devices := by
  cases raw with
  | none => exact ⟨rfl, h⟩
  | some msg =>
    simp only [handleMessage]
    split
    · exact ⟨rfl, h⟩
    · split
      · split
        · exact ⟨rfl, h⟩
        · next hc =>
          refine ⟨rfl, ?_⟩
          simp only [Bool.or_eq_true, not_or, Bool.not_eq_true', decide_eq_true_eq] at hc
          exact mapSet_good s.instanceId s.devices _ _
            (Bool.eq_true_of_not_eq_false hc.1) hc.2 h
      · split
        · split
          · exact ⟨rfl, h⟩
          · split
            · exact ⟨rfl, h⟩
            · exact ⟨rfl, h⟩
        · split
          · exact ⟨rfl, h⟩
          · exact ⟨rfl, h⟩

theorem runEvents_cons (s : MainState) (e : UdpEvent) (rest : List UdpEvent) :
    runEvents s (e :: rest) =
      runEvents (handleMessage s e.raw e.senderAddr e.now e.approve).1 rest := rfl

theorem setPort_run (s : MainState) (newPort : JVal) (p : Int) (pid : Nat)
    (hp : jsNumber newPort = some p) (hpos : 0 < p) (hproc : s.serverProc = some pid) :
    setPort s newPort =
      ({ s with wsPort := p, serverProc := some s.nextPid, serverStarted := true,
                nextPid := s.nextPid + 1 },
        [Action.killProc pid,
          Action.spawnServer s.nextPid (serverArgs p ⟨none, false, false⟩),
          Action.uiStatus ("Server gestartet auf Port " ++ toString p)]) := by
  simp [setPort, hp, hproc, stopServer, startServer, show ¬ p ≤ 0 from not_le.mpr hpos]

/-!  Claim theorems. -/

/-- C1 counterexample: an inbound REQUEST_CONTROL with no `to` field is
not ignored.  On the concrete request `C1req` (no `to`; sender
10.0.0.7; user denies), the receiver raises the approval prompt and
sends a RESPONSE_CONTROL — contradicting the claim that an absent `to`
causes the request to be ignored with no prompt and no response. -/
theorem C1_counterexample :
    getField C1req "to" = JVal.absent ∧
    (handleMessage exState (some C1req) "10.0.0.7" 1000 false).2 =
      [Action.approvalPrompt (JVal.str "10.0.0.5"),
        Action.sendResponse "10.0.0.7" false "local-uuid"] :=
  ⟨rfl, rfl⟩

/-- C1 amended: only a REQUEST_CONTROL whose `to` field is present
(truthy) and differs from the local instance id is ignored (no prompt,
no response, state unchanged); a request with `to` absent is handled
like one addressed to this instance — the approval prompt is raised
and a RESPONSE_CONTROL is sent to the observed sender. -/
theorem C1_theorem (s : MainState) (msg : JVal) (addr : String) (now : Int) (approve : Bool)
    (hm : jsTruthy msg = true) (ho : typeofObject msg = true)
    (ht : getField msg "type" = JVal.str "REQUEST_CONTROL") :
    (jsTruthy (getField msg "to") = true → getField msg "to" ≠ JVal.str s.instanceId →
      handleMessage s (some msg) addr now approve = (s, [])) ∧
    (jsTruthy (getField msg "to") = false →
      Action.approvalPrompt (jsOr (getField msg "name") (getField msg "ws_host"))
          ∈ (handleMessage s (some msg) addr now approve).2 ∧
      Action.sendResponse addr approve s.instanceId
          ∈ (handleMessage s (some msg) addr now approve).2) := by
  constructor
  · intro hto hne
    simp [handleMessage, hm, ho, ht, hto, hne]
  · intro hto
    cases approve <;> simp [handleMessage, hm, ho, ht, hto, startClient]

/-- C1 witness: the amended statement applied to the concrete request
`C1wMsg`, whose `to` is "other-id" while the local id is "local-uuid":
the handler ignores it. -/
theorem C1_witness :
    handleMessage exState (some C1wMsg) "10.0.0.2" 5 false = (exState, []) :=
  (C1_theorem exState C1wMsg "10.0.0.2" 5 false rfl rfl rfl).1 rfl (by decide)

/-- C2 counterexample: in an accepted handoff the code does the
opposite of the claim.  On the responder (state `exState`, id
"local-uuid") an accepted REQUEST_CONTROL `C2req` spawns an inject
worker (`client.py`) and no capture worker; on the requester an
inbound RESPONSE_CONTROL{accepted:true} `C2resp` spawns nothing at
all.  The claim said the requester starts the inject worker and the
responder performs no inject-worker action. -/
theorem C2_counterexample :
    ((handleMessage exState (some C2req) "10.0.0.5" 1000 true).2.any
        Action.isSpawnClient = true) ∧
    ((handleMessage exState (some C2req) "10.0.0.5" 1000 true).2.any
        Action.isSpawnServer = false) ∧
    ((handleMessage exState (some C2resp) "10.0.0.9" 2000 true).2.any
        Action.isSpawnClient = false) ∧
    ((handleMessage exState (some C2resp) "10.0.0.9" 2000 true).2.any
        Action.isSpawnServer = false) ∧
    ((handleMessage exState (some C2resp) "10.0.0.9" 2000 true).2.any
        Action.isKill = false) := by
  decide

/-- C2 amended: in an accepted handoff it is the responder, not the
requester, that starts an inject worker: on approving a
REQUEST_CONTROL addressed to it (or with `to` absent) the responder
sends RESPONSE_CONTROL{accepted:true} to the observed sender and
spawns the inject worker targeting the advertised channel address of
the requester (the `ws_host`/`ws_port` of the request), taking no capture-worker
action; the requester, on receiving any RESPONSE_CONTROL, performs no
worker action and only forwards the response to its UI. -/
theorem C2_theorem :
    (∀ s msg addr now, jsTruthy msg = true → typeofObject msg = true →
      getField msg "type" = JVal.str "REQUEST_CONTROL" →
      (jsTruthy (getField msg "to") = false ∨ getField msg "to" = JVal.str s.instanceId) →
      Action.sendResponse addr true s.instanceId
          ∈ (handleMessage s (some msg) addr now true).2 ∧
      Action.spawnClient s.nextPid (getField msg "ws_host")
          (jsNumber (jsOr (getField msg "ws_port") (JVal.num 8765)))
          (jsOr (getField msg "options") (JVal.obj JObj.nil))
        ∈ (handleMessage s (some msg) addr now true).2 ∧
      (handleMessage s (some msg) addr now true).2.any Action.isSpawnServer = false) ∧
    (∀ s msg addr now approve, jsTruthy msg = true → typeofObject msg = true →
      getField msg "type" = JVal.str "RESPONSE_CONTROL" →
      handleMessage s (some msg) addr now approve =
        (s, [Action.uiDevices (some (msg, addr))])) := by
  constructor
  · intro s msg addr now hm ho ht hto
    rcases hto with h | h <;>
      simp [handleMessage, hm, ho, ht, h, startClient, Action.isSpawnServer]
  · intro s msg addr now approve hm ho ht
    simp [handleMessage, hm, ho, ht]

/-- C2 witness: the amended statement applied to the concrete inputs
`C2wReq` (a request without `to`, accepted) and `C2wResp` (a response
datagram). -/
theorem C2_witness :
    (Action.sendResponse "10.0.0.5" true exState.instanceId
        ∈ (handleMessage exState (some C2wReq) "10.0.0.5" 7 true).2) ∧
    (handleMessage exState (some C2wResp) "10.0.0.9" 8 false =
      (exState, [Action.uiDevices (some (C2wResp, "10.0.0.9"))])) :=
  ⟨(C2_theorem.1 exState C2wReq "10.0.0.5" 7 rfl rfl rfl (Or.inl rfl)).1,
    C2_theorem.2 exState C2wResp "10.0.0.9" 8 false rfl rfl rfl⟩

/-- C3 counterexample: a second start-capture-worker call with a
different configuration while the worker is running is a plain no-op —
nothing is stopped and nothing is restarted — contradicting the
claimed stop-then-restart.  Concretely: start with `C3optsA`, then
call again with `C3optsB ≠ C3optsA`; the second call returns the state
unchanged and performs no action. -/
theorem C3_counterexample :
    C3optsA ≠ C3optsB ∧
    startServer (startServer exState C3optsA).1 C3optsB =
      ((startServer exState C3optsA).1, []) := by
  exact ⟨by decide, rfl⟩

/-- C3 amended: while the capture worker is already started
(`serverStarted` set), every start-capture-worker call is a no-op,
whether or not the supplied configuration matches the running one; the
supervisor records no configuration and performs no comparison. -/
theorem C3_theorem (s : MainState) (options : ServerOptions) (h : s.serverStarted = true) :
    startServer s options = (s, []) := by
  simp [startServer, h]

/-- C3 witness: the amended statement applied after a concrete start
with `C3wOpts`, called again with a different configuration. -/
theorem C3_witness :
    startServer (startServer exState C3wOpts).1 ⟨some "f9", true, false⟩ =
      ((startServer exState C3wOpts).1, []) :=
  C3_theorem _ _ rfl

/-- C4 counterexample: starting a second inject worker neither kills
the first one nor leaves at most one live: after two consecutive
start-inject-worker calls the trace contains no kill and both worker
processes (pids 0 and 1) are live simultaneously. -/
theorem C4_counterexample :
    (startClient (startClient exState (JVal.str "10.0.0.5") (some 9100)
          (JVal.obj JObj.nil)).1
        (JVal.str "10.0.0.6") (some 9200) (JVal.obj JObj.nil)).2.any Action.isKill = false ∧
    clientLiveAfter []
        ((startClient exState (JVal.str "10.0.0.5") (some 9100) (JVal.obj JObj.nil)).2 ++
          (startClient (startClient exState (JVal.str "10.0.0.5") (some 9100)
                (JVal.obj JObj.nil)).1
              (JVal.str "10.0.0.6") (some 9200) (JVal.obj JObj.nil)).2) = [0, 1] := by
  exact ⟨rfl, rfl⟩

/-- C4 amended: the start-inject-worker operation does not stop a
prior inject worker: it emits no kill, spawns the new process aimed at
the given target, and merely overwrites the stored handle — so a
previously started inject worker can stay live alongside the new
one. -/
theorem C4_theorem (s : MainState) (host : JVal) (port : Option Int) (options : JVal) :
    startClient s host port options =
      ({ s with clientProc := some s.nextPid, nextPid := s.nextPid + 1 },
        [Action.spawnClient s.nextPid host port options]) := rfl

/-- C5 counterexample: a RESPONSE_CONTROL from a peer to which no
request is outstanding (`exState` is fresh: it never sent any request)
is not ignored — it is forwarded to the UI, which reports
granted/denied to the user. -/
theorem C5_counterexample :
    exState.devices = [] ∧
    (handleMessage exState (some C5resp) "203.0.113.9" 5 false).2 =
      [Action.uiDevices (some (C5resp, "203.0.113.9"))] :=
  ⟨rfl, rfl⟩

/-- C5 amended: every RESPONSE_CONTROL datagram, from any sender, is
forwarded to the UI (which displays the granted/denied status); the
main process keeps no record of the peer of an outstanding request and
performs no sender check, so a response from an unexpected peer is
reported exactly like an expected one. -/
theorem C5_theorem (s : MainState) (msg : JVal) (addr : String) (now : Int) (approve : Bool)
    (hm : jsTruthy msg = true) (ho : typeofObject msg = true)
    (ht : getField msg "type" = JVal.str "RESPONSE_CONTROL") :
    handleMessage s (some msg) addr now approve =
      (s, [Action.uiDevices (some (msg, addr))]) := by
  simp [handleMessage, hm, ho, ht]

/-- C5 witness: the amended statement applied to the concrete stray
response `C5resp`. -/
theorem C5_witness :
    handleMessage exState (some C5resp) "203.0.113.9" 5 false =
      (exState, [Action.uiDevices (some (C5resp, "203.0.113.9"))]) :=
  C5_theorem exState C5resp "203.0.113.9" 5 false rfl rfl rfl

/-- C6 confirmed: every malformed inbound datagram — JSON parse
failure, a parsed value that is falsy or not of object type, or an
object of unknown `type` — is dropped silently: the handler leaves the
state unchanged and performs no action.  The handler is a total
function on all parse outcomes, so no datagram in these classes can
raise a fault out of the receive loop; the only fatal path of the
discovery subsystem is the socket bind, outside this handler. -/
theorem C6_theorem (s : MainState) (raw : Option JVal) (addr : String)
    (now : Int) (approve : Bool) (h : malformedPayload raw) :
    handleMessage s raw addr now approve = (s, []) := by
  rcases h with h | ⟨v, rfl, h | h⟩ | ⟨v, rfl, h1, h2, h3⟩
  · subst h; rfl
  · simp [handleMessage, h]
  · simp [handleMessage, h]
  · simp [handleMessage, h1, h2, h3]

/-- C6 witness: the theorem applied to one representative of each
malformed class — a parse failure, a bare JSON string, and the
unknown-type object `C6junk`. -/
theorem C6_witness :
    handleMessage exState none "10.0.0.3" 1 true = (exState, []) ∧
    handleMessage exState (some (JVal.str "hello")) "10.0.0.3" 1 true = (exState, []) ∧
    handleMessage exState (some C6junk) "10.0.0.3" 1 true = (exState, []) :=
  ⟨C6_theorem exState none "10.0.0.3" 1 true (Or.inl rfl),
    C6_theorem exState (some (JVal.str "hello")) "10.0.0.3" 1 true
      (Or.inr (Or.inl ⟨JVal.str "hello", rfl, Or.inr rfl⟩)),
    C6_theorem exState (some C6junk) "10.0.0.3" 1 true
      (Or.inr (Or.inr ⟨C6junk, rfl, by decide, by decide, by decide⟩))⟩

/-- C7 confirmed: with TTL = 3 × beacon interval + 2000 ms margin, a
peer record (with a genuine, nonzero last-seen stamp) survives a prune
tick exactly when `now - last_seen ≤ TTL`: it is removed by the first
prune tick at which the staleness strictly exceeds TTL, and is present
at any time before that threshold (nothing but the prune tick removes
records, and `list()` is a snapshot of this map). -/
theorem C7_theorem (s : MainState) (now : Int) (k : JVal) (d : Device)
    (hmem : (k, d) ∈ s.devices) (hls : d.last_seen ≠ 0) :
    DEVICE_TTL = 3 * BEACON_INTERVAL + 2000 ∧
    ((k, d) ∈ (pruneDevices s now).1.devices ↔ now - d.last_seen ≤ DEVICE_TTL) := by
  refine ⟨by decide, ?_⟩
  simp only [pruneDevices, List.mem_filter]
  constructor
  · rintro ⟨-, hkeep⟩
    simp [staleAt, hls] at hkeep
    omega
  · intro hle
    refine ⟨hmem, ?_⟩
    simp [staleAt, hls]
    omega

/-- C7 witness: the record `C7dev` (last seen at 1000) is still listed
when pruning at time 9000 (staleness 8000 = TTL) and is gone when
pruning at time 9001 (staleness 8001 > TTL). -/
theorem C7_witness :
    (JVal.str "peer-id", C7dev) ∈ (pruneDevices C7state 9000).1.devices ∧
    (JVal.str "peer-id", C7dev) ∉ (pruneDevices C7state 9001).1.devices := by
  constructor
  · exact ((C7_theorem C7state 9000 (JVal.str "peer-id") C7dev (by decide)
      (by decide)).2).mpr (by decide)
  · intro hmem
    have h := ((C7_theorem C7state 9001 (JVal.str "peer-id") C7dev (by decide)
      (by decide)).2).mp hmem
    revert h
    decide

/-- C8 confirmed: (a) across any sequence of inbound datagrams, the
registry never holds an entry whose key is falsy (missing instance id)
or equal to the local instance identity, and it holds at most one
entry per instance id (keys stay pairwise distinct); (b) a beacon
whose instance id is already registered refreshes the record in place:
the key sequence is unchanged (no duplicate is added) and the stored
record becomes the one built from the new beacon. -/
theorem C8_theorem :
    (∀ s evs, goodDevices s.instanceId s.devices →
      goodDevices s.instanceId (runEvents s evs).devices ∧
      (runEvents s evs).instanceId = s.instanceId) ∧
    (∀ s msg addr now approve, jsTruthy msg = true → typeofObject msg = true →
      getField msg "type" = JVal.str "BEACON" →
      jsTruthy (getField msg "instance_id") = true →
      getField msg "instance_id" ≠ JVal.str s.instanceId →
      getField msg "instance_id" ∈ s.devices.map Prod.fst →
      (handleMessage s (some msg) addr now approve).1.devices.map Prod.fst
          = s.devices.map Prod.fst ∧
      lookupDevice (handleMessage s (some msg) addr now approve).1.devices
          (getField msg "instance_id") = some (beaconDevice msg addr now)) := by
  constructor
  · intro s evs
    induction evs generalizing s with
    | nil => intro h; exact ⟨h, rfl⟩
    | cons e rest ih =>
      intro h
      have hg := handleMessage_good s e.raw e.senderAddr e.now e.approve h
      have h2 : goodDevices (handleMessage s e.raw e.senderAddr e.now e.approve).1.instanceId
          (handleMessage s e.raw e.senderAddr e.now e.approve).1.devices := by
        rw [hg.1]; exact hg.2
      have hrest := ih (handleMessage s e.raw e.senderAddr e.now e.approve).1 h2
      rw [runEvents_cons]
      exact ⟨hg.1 ▸ hrest.1, hrest.2.trans hg.1⟩
  · intro s msg addr now approve hm ho ht hi hne hinmem
    have hstep : (handleMessage s (some msg) addr now approve).1.devices
        = mapSet s.devices (getField msg "instance_id") (beaconDevice msg addr now) := by
      simp [handleMessage, hm, ho, ht, hi, hne]
    rw [hstep]
    exact ⟨by rw [mapSet_keys, if_pos hinmem], lookupDevice_mapSet _ _ _⟩

/-- C8 witness: part (a) applied to a fresh state and the single
beacon event `C8ev`; part (b) applied to `C8state`, which already
holds a record for "peer-8", on a repeated beacon from the same id. -/
theorem C8_witness :
    (goodDevices exState.instanceId (runEvents exState [C8ev]).devices ∧
      (runEvents exState [C8ev]).instanceId = exState.instanceId) ∧
    ((handleMessage C8state (some C8beacon) "10.0.0.4" 500 false).1.devices.map Prod.fst
        = C8state.devices.map Prod.fst ∧
      lookupDevice (handleMessage C8state (some C8beacon) "10.0.0.4" 500 false).1.devices
          (getField C8beacon "instance_id") = some (beaconDevice C8beacon "10.0.0.4" 500)) :=
  ⟨C8_theorem.1 exState [C8ev] (by simp [goodDevices, exState]),
    C8_theorem.2 C8state C8beacon "10.0.0.4" 500 false rfl rfl rfl rfl
      (by decide) (by decide)⟩

/-- C9 counterexample: the code does not ensure the old worker is
fully stopped before the new one starts.  On `C9state` (worker pid 7
live) with new port 9100 the whole trace is exactly kill-signal, then
spawn, then status: nothing between the kill and the spawn observes or
awaits the exit of pid 7 (`child.kill()` only sends a signal), so at
the moment pid 8 is spawned pid 7 may still be running — both are in
the possibly-live set after the trace.  Moreover the exit callback
registered on the old worker (main.js line 196) fires only later, and
when it does it unconditionally clears `serverProc`/`serverStarted`,
clobbering the tracking of the freshly spawned worker. -/
theorem C9_counterexample :
    (setPort C9state (JVal.num 9100)).2 =
      [Action.killProc 7,
        Action.spawnServer 8 (serverArgs 9100 ⟨none, false, false⟩),
        Action.uiStatus ("Server gestartet auf Port " ++ toString (9100 : Int))] ∧
    mayBeLiveAfter [7] (setPort C9state (JVal.num 9100)).2 = [7, 8] ∧
    (serverExitCallback (setPort C9state (JVal.num 9100)).1).1.serverProc = none ∧
    (serverExitCallback (setPort C9state (JVal.num 9100)).1).1.serverStarted = false :=
  ⟨rfl, rfl, rfl, rfl⟩

/-- C9 amended: changing the control-channel port to a valid value
while a capture worker is live stores the new port, sends a kill to
the running worker and clears its handle, and then immediately spawns
the replacement bound to the new port — in that order, but without
awaiting the exit of the old worker: the exit arrives only through the
asynchronous callback, so the old process may still be running when
the new one starts (no-overlap is not ensured), and a late-firing exit
callback resets the `serverStarted`/`serverProc` tracking of the supervisor
even though it now refers to the replacement worker. -/
theorem C9_theorem (s : MainState) (newPort : JVal) (p : Int) (pid : Nat)
    (hp : jsNumber newPort = some p) (hpos : 0 < p) (hproc : s.serverProc = some pid) :
    (setPort s newPort).1.wsPort = p ∧
    (setPort s newPort).2 =
      [Action.killProc pid,
        Action.spawnServer s.nextPid (serverArgs p ⟨none, false, false⟩),
        Action.uiStatus ("Server gestartet auf Port " ++ toString p)] ∧
    serverArgs p ⟨none, false, false⟩ =
      ["server.py", "--host", "0.0.0.0", "--port", toString p,
        "--hotkey", "f13", "--start-capturing"] ∧
    mayBeLiveAfter [pid] (setPort s newPort).2 = [pid, s.nextPid] ∧
    (serverExitCallback (setPort s newPort).1).1.serverStarted = false ∧
    (serverExitCallback (setPort s newPort).1).1.serverProc = none := by
  have hrun := setPort_run s newPort p pid hp hpos hproc
  exact ⟨by rw [hrun], by rw [hrun], rfl, by rw [hrun]; rfl,
    by rw [hrun]; rfl, by rw [hrun]; rfl⟩

/-- C9 witness: the amended theorem applied to `C9state` (capture
worker pid 7 live on port 8765) with new port 9100: the new port is
stored, and both the killed worker 7 and the replacement 8 are in the
possibly-live set after the restart trace. -/
theorem C9_witness :
    (setPort C9state (JVal.num 9100)).1.wsPort = 9100 ∧
    mayBeLiveAfter [7] (setPort C9state (JVal.num 9100)).2 = [7, 8] := by
  have h := C9_theorem C9state (JVal.num 9100) 9100 7 rfl (by decide) rfl
  exact ⟨h.1, h.2.2.2.1⟩

/-- C10 confirmed: the capture worker restarted by a port change is
started with empty options `{}`: whatever state the supervisor is in
(and hence whatever hotkey or forwarding flags the previous worker was
started with — the supervisor retains no configuration), the
argv of the replacement uses the default hotkey `f13` and contains neither
`--no-tx-mouse` nor `--no-tx-keyboard`. -/
theorem C10_theorem (s : MainState) (newPort : JVal) (p : Int) (pid : Nat)
    (hp : jsNumber newPort = some p) (hpos : 0 < p) (hproc : s.serverProc = some pid) :
    Action.spawnServer s.nextPid
        ["server.py", "--host", "0.0.0.0", "--port", toString p,
          "--hotkey", "f13", "--start-capturing"]
      ∈ (setPort s newPort).2 := by
  have hrun := setPort_run s newPort p pid hp hpos hproc
  rw [hrun]
  have hargs : serverArgs p ⟨none, false, false⟩ =
      ["server.py", "--host", "0.0.0.0", "--port", toString p,
        "--hotkey", "f13", "--start-capturing"] := rfl
  rw [← hargs]
  simp

/-- C10 witness: the theorem applied to `C10state` (worker pid 7
started earlier with a custom configuration) and new port 9100; the
concrete respawn argv uses hotkey f13 and has no forwarding-disable
flags. -/
theorem C10_witness :
    Action.spawnServer 8
        ["server.py", "--host", "0.0.0.0", "--port", toString (9100 : Int),
          "--hotkey", "f13", "--start-capturing"]
      ∈ (setPort C10state (JVal.num 9100)).2 :=
  C10_theorem C10state (JVal.num 9100) 9100 7 rfl (by decide) rfl

end Controll
